import Mathlib

/-!
Shallow embedding of the Glambook request-authorization and
resource-ownership pipeline.

Sources embedded (TypeScript):
* `src/backend/src/middleware/auth.middleware.ts` — `protect`
* `src/backend/src/middleware/role.middleware.ts` — `authorize`
* `src/backend/src/routes/service.routes.ts` — route/middleware wiring
* `src/unnamed/part_003` — the service controller
  (`isValidObjectId`, `getAllServices`, `getServiceById`,
   `updateService`, `deleteService`)
* `src/unnamed/part_002` (lines 316-375) — the second, parallel copy of
  `getAllServices`'s query construction

Modelling conventions:
* Roles and ids are `String`s, as in the source (the code compares them
  with `===` / `includes` on strings).
* JavaScript numbers coming from query parameters are modelled by
  `JSNum`: either NaN or a rational value.  `jsNumber` models
  `Number(s)` on decimal strings (sign, digits, optional fraction;
  whitespace-trimmed; the empty string is 0; anything else is NaN).
  Hexadecimal / exponent forms of `Number` are not exercised by any
  claim and are mapped to NaN.
* Stored prices are `Rat` (the schema validates them as real numbers,
  `min 0`, at most two decimals), while query bounds are `JSNum`.
  The store's comparison follows the BSON total order on numbers, in
  which NaN is equal to itself and below every other number; `geBound`
  and `leBound` encode that order.
* The document store is a list of documents with unique `_id`s.
  `findById` / `findByIdAndUpdate` / `findByIdAndDelete` are modelled
  directly; each store access performed by a controller is recorded in
  an access log (a `List String` of the ids consulted), so that
  "fails before any store access" is a provable statement.
* `populate` and the `sort({createdAt: -1})` presentation step affect
  only the shape/order of the returned documents, not which documents
  are returned; list membership is what the claims quantify over.
* Mongoose schema validation (`runValidators`) is delegated to the
  external store by the spec and is not modelled; no claim depends on a
  validation failure.
* HTTP statuses: `Unauthenticated` = 401 (kept explicitly in
  `AuthResult` because one claim is about the 401 responses),
  `InvalidIdentifier` = 400, `Forbidden` = 403, `NotFound` = 404.
-/

namespace Glambook

/-- A JavaScript number as produced by `Number(...)`: NaN or a rational. -/
inductive JSNum where
  | nan : JSNum
  | num : Rat → JSNum
deriving DecidableEq

/-- Accumulate a decimal digit list into a natural number. -/
def digitsVal (cs : List Char) : Nat :=
  cs.foldl (fun n c => 10 * n + (c.toNat - 48)) 0

/-- Whitespace, as trimmed from both ends of a string. -/
def isWS (c : Char) : Bool :=
  c == (' ') || c == ('\t') || c == ('\r') || c == ('\n')

/-- Trim whitespace from both ends of a character list
(structural counterpart of `String.trim`, so terms evaluate). -/
def trimChars (cs : List Char) : List Char :=
  ((cs.dropWhile isWS).reverse.dropWhile isWS).reverse

/-- `pat.isPrefixOf cs` (structural counterpart of `String.startsWith`). -/
def startsWithChars : List Char → List Char → Bool
  | [], _ => true
  | _ :: _, [] => false
  | p :: ps, c :: cs => p == c && startsWithChars ps cs

/-- Worker for `splitOnChar`. -/
def splitOnCharAux (sep : Char) : List Char → List Char → List (List Char)
  | [], acc => [acc.reverse]
  | c :: rest, acc =>
    if c == sep then acc.reverse :: splitOnCharAux sep rest []
    else splitOnCharAux sep rest (c :: acc)

/-- Split on every occurrence of a separator character (structural
counterpart of JavaScript `split(sep)` / `String.splitOn`). -/
def splitOnChar (sep : Char) (cs : List Char) : List (List Char) :=
  splitOnCharAux sep cs []

/-- Unsigned decimal parser: `digits`, `digits.frac`, `digits.` or `.frac`. -/
def parseUnsigned (cs : List Char) : Option Rat :=
  let intPart := cs.takeWhile Char.isDigit
  let rest := cs.dropWhile Char.isDigit
  match rest with
  | [] => if intPart.isEmpty then none else some ((digitsVal intPart : Nat) : Rat)
  | '.' :: frac =>
    if frac.all Char.isDigit && !(intPart.isEmpty && frac.isEmpty) then
      some ((digitsVal intPart : Nat) + (digitsVal frac : Nat) / ((10 : Rat) ^ frac.length))
    else none
  | _ => none

/-- Signed decimal parser. -/
def parseSigned (cs : List Char) : Option Rat :=
  match cs with
  | '-' :: rest => (parseUnsigned rest).map (fun q => -q)
  | '+' :: rest => parseUnsigned rest
  | rest => parseUnsigned rest

/-- Model of JavaScript `Number(s)` on the decimal strings the claims use:
trims whitespace, the empty string is `0`, a signed decimal literal is its
value, everything else is NaN. -/
def jsNumber (s : String) : JSNum :=
  let t := trimChars s.data
  if t.isEmpty then JSNum.num 0
  else
    match parseSigned t with
    | some q => JSNum.num q
    | none => JSNum.nan

/-- JavaScript truthiness of an optional query-parameter string:
present and non-empty. -/
def truthy (o : Option String) : Bool :=
  match o with
  | some s => !s.isEmpty
  | none => false

/-- The authenticated caller attached to the request by `protect`
(the user document with the `password` field excluded by
`.select('-password')`).  This is the value all downstream checks use. -/
structure Identity where
  id : String
  name : String
  role : String
deriving DecidableEq

/-- An account as stored in the identity store (the `User` model):
the same public fields plus the password. -/
structure Account where
  id : String
  name : String
  role : String
  password : String
deriving DecidableEq

/-- `.select('-password')`: project an account to the identity
attached to the request — every field except the password. -/
def selectNoPassword (a : Account) : Identity :=
  { id := a.id, name := a.name, role := a.role }

/-- Outcome of the `protect` middleware: the resolved identity, or an
HTTP-status/message failure response. -/
inductive AuthResult where
  | ok : Identity → AuthResult
  | unauth : Nat → String → AuthResult
deriving DecidableEq

/-- `protect` from `auth.middleware.ts`.  `verify` models
`jwt.verify` (`none` = the verification threw: malformed, expired or
bad signature), returning the `decoded.id` subject; `findUser` models
`User.findById` in the external identity store. -/
def protect (verify : String → Option String) (findUser : String → Option Account)
    (authHeader : Option String) : AuthResult :=
  let token : Option (List Char) :=
    match authHeader with
    | some h =>
      if startsWithChars (("Bearer").data) h.data then (splitOnChar (' ') h.data).get? 1
      else none
    | none => none
  match token with
  | none => AuthResult.unauth 401 ("Not authorized, no token")
  | some t =>
    if t.isEmpty then AuthResult.unauth 401 ("Not authorized, no token")
    else
      match verify (String.mk t) with
      | none => AuthResult.unauth 401 ("Not authorized, token failed")
      | some uid =>
        match findUser uid with
        | none => AuthResult.unauth 401 ("User not found")
        | some a => AuthResult.ok (selectNoPassword a)

/-- `authorize(...roles)` from `role.middleware.ts`:
`roles.includes(req.user.role)`. -/
def authorize (roles : List String) (userRole : String) : Bool :=
  roles.contains userRole

/-- A service document (the `Service` model of `part_002`). -/
structure ServiceDoc where
  id : String
  title : String
  description : String
  price : Rat
  duration : Int
  category : String
  status : String
  vendorId : String
  imageUrl : Option String
  createdAt : Nat
deriving DecidableEq

/-- The resource store: a list of service documents with unique ids. -/
abbrev DB := List ServiceDoc

/-- A caller-supplied update body (`req.body` of an update request);
a field that is `none` is absent from the patch. -/
structure UpdatePatch where
  title : Option String
  description : Option String
  price : Option Rat
  duration : Option Int
  category : Option String
  status : Option String
  imageUrl : Option String
  vendorId : Option String
deriving DecidableEq

/-- The empty patch. -/
def emptyPatch : UpdatePatch :=
  { title := none, description := none, price := none, duration := none,
    category := none, status := none, imageUrl := none, vendorId := none }

/-- Apply a patch to a stored document: each present field overwrites. -/
def applyPatch (s : ServiceDoc) (p : UpdatePatch) : ServiceDoc :=
  { s with
    title := p.title.getD s.title,
    description := p.description.getD s.description,
    price := p.price.getD s.price,
    duration := p.duration.getD s.duration,
    category := p.category.getD s.category,
    status := p.status.getD s.status,
    imageUrl := match p.imageUrl with | some u => some u | none => s.imageUrl,
    vendorId := p.vendorId.getD s.vendorId }

/-- `Service.findById`. -/
def dbFindById (db : DB) (i : String) : Option ServiceDoc :=
  db.find? (fun s => s.id == i)

/-- `Service.findByIdAndUpdate` write part (ids are unique, so at most
one document is rewritten). -/
def dbUpdate (db : DB) (i : String) (p : UpdatePatch) : DB :=
  db.map (fun s => if s.id == i then applyPatch s p else s)

/-- `Service.findByIdAndDelete` write part (ids are unique, so at most
one document is removed). -/
def dbDelete (db : DB) (i : String) : DB :=
  db.filter (fun s => !(s.id == i))

/-- `mongoose.Types.ObjectId.isValid` on a string: a 24-character hex
string, or any 12-character string (a raw 12-byte id). -/
def isHexChar (c : Char) : Bool :=
  c.isDigit || (('a' ≤ c && c ≤ 'f') || ('A' ≤ c && c ≤ 'F'))

/-- `isValidObjectId` from the controller (`part_003`, lines 5-7). -/
def isValidObjectId (s : String) : Bool :=
  (s.length == 24 && s.data.all isHexChar) || s.length == 12

/-- The raw query parameters of a listing request
(`req.query`: `category`, `status`, `minPrice`, `maxPrice`). -/
structure RawParams where
  category : Option String
  status : Option String
  minPrice : Option String
  maxPrice : Option String
deriving DecidableEq

/-- The `price` sub-document of a selection predicate:
`{$gte: ..., $lte: ...}`. -/
structure PriceRange where
  gte : Option JSNum
  lte : Option JSNum
deriving DecidableEq

/-- The selection predicate (`query` object) sent to `Service.find`. -/
structure Query where
  status : Option String
  category : Option String
  price : Option PriceRange
deriving DecidableEq

/-- Query construction of `getAllServices` as written in
`src/unnamed/part_002`, lines 316-352. -/
def buildQuery_v2 (userRole : String) (p : RawParams) : Query :=
  let q0 : Query := { status := none, category := none, price := none }
  let q1 := if userRole == ("client") then { q0 with status := some ("active") } else q0
  let q2 := if truthy p.category then { q1 with category := p.category } else q1
  let q3 := if truthy p.status && !(userRole == ("client")) then { q2 with status := p.status } else q2
  if truthy p.minPrice || truthy p.maxPrice then
    { q3 with price := some ({
        gte := if truthy p.minPrice then some (jsNumber ((p.minPrice).getD (""))) else none,
        lte := if truthy p.maxPrice then some (jsNumber ((p.maxPrice).getD (""))) else none }) }
  else q3

/-- Query construction of `getAllServices` as written in
`src/unnamed/part_003`, lines 93-116. -/
def buildQuery_v3 (userRole : String) (p : RawParams) : Query :=
  let q0 : Query := { status := none, category := none, price := none }
  let q1 := if userRole == ("client") then { q0 with status := some ("active") } else q0
  let q2 := if truthy p.category then { q1 with category := p.category } else q1
  let q3 := if truthy p.status && !(userRole == ("client")) then { q2 with status := p.status } else q2
  if truthy p.minPrice || truthy p.maxPrice then
    { q3 with price := some ({
        gte := if truthy p.minPrice then some (jsNumber ((p.minPrice).getD (""))) else none,
        lte := if truthy p.maxPrice then some (jsNumber ((p.maxPrice).getD (""))) else none }) }
  else q3

/-- `price >= bound` in the store's comparison: in the BSON total order
on numbers, NaN is below every (real) number. -/
def geBound (price : Rat) (b : JSNum) : Bool :=
  match b with
  | JSNum.nan => true
  | JSNum.num q => decide (q ≤ price)

/-- `price <= bound` in the store's comparison: no real number is
`<=` NaN in the BSON total order. -/
def leBound (price : Rat) (b : JSNum) : Bool :=
  match b with
  | JSNum.nan => false
  | JSNum.num q => decide (price ≤ q)

/-- Whether a stored document satisfies a selection predicate. -/
def matchesQuery (q : Query) (s : ServiceDoc) : Bool :=
  (match q.status with | some st => s.status == st | none => true)
  && (match q.category with | some c => s.category == c | none => true)
  && (match q.price with
      | some r =>
        (match r.gte with | some b => geBound s.price b | none => true)
        && (match r.lte with | some b => leBound s.price b | none => true)
      | none => true)

/-- `Service.find(query)`: the documents satisfying the predicate
(the subsequent `populate`/`sort` steps change presentation and order,
not membership). -/
def dbFind (db : DB) (q : Query) : List ServiceDoc :=
  db.filter (fun s => matchesQuery q s)

/-- The `getAllServices` controller of `part_003` (lines 93-136):
the documents returned for a role and raw parameter set. -/
def getAllServices (db : DB) (userRole : String) (p : RawParams) : List ServiceDoc :=
  dbFind db (buildQuery_v3 userRole p)

/-- Outcome of `getServiceById`. -/
inductive GetResult where
  | forbidden : GetResult
  | invalidId : GetResult
  | notFound : GetResult
  | ok : ServiceDoc → GetResult
deriving DecidableEq

/-- Outcome of `updateService` (`ok` carries what
`findByIdAndUpdate(..., {new: true})` returned). -/
inductive UpdateResult where
  | invalidId : UpdateResult
  | notFound : UpdateResult
  | forbidden : UpdateResult
  | ok : Option ServiceDoc → UpdateResult
deriving DecidableEq

/-- Outcome of `deleteService`. -/
inductive DeleteResult where
  | invalidId : DeleteResult
  | notFound : DeleteResult
  | forbidden : DeleteResult
  | ok : DeleteResult
deriving DecidableEq

/-- `getServiceById` (`part_003`, lines 138-174); the second component
is the access log: the ids the controller looked up in the store. -/
def getServiceById (db : DB) (svcid : String) : GetResult × List String :=
  if !isValidObjectId svcid then (GetResult.invalidId, [])
  else
    match dbFindById db svcid with
    | none => (GetResult.notFound, [svcid])
    | some s => (GetResult.ok s, [svcid])

/-- The upload path attached when a file was sent with the request. -/
def uploadPath (fname : String) : String :=
  "/uploads/services/" ++ fname

/-- `updateService` (`part_003`, lines 176-249).  `file` models
`req.file`.  Returns the outcome, the store after the request and the
access log. -/
def updateService (db : DB) (vendorId : String) (svcid : String)
    (body : UpdatePatch) (file : Option String) :
    UpdateResult × DB × List String :=
  if !isValidObjectId svcid then (UpdateResult.invalidId, db, [])
  else
    match dbFindById db svcid with
    | none => (UpdateResult.notFound, db, [svcid])
    | some service =>
      if service.vendorId != vendorId then (UpdateResult.forbidden, db, [svcid])
      else
        let upd1 : UpdatePatch := { body with vendorId := none }
        let upd2 : UpdatePatch :=
          match file with
          | some fname => { upd1 with imageUrl := some (uploadPath fname) }
          | none => upd1
        let db2 := dbUpdate db svcid upd2
        (UpdateResult.ok (dbFindById db2 svcid), db2, [svcid, svcid])

/-- `deleteService` (`part_003`, lines 251-301). -/
def deleteService (db : DB) (userId : String) (userRole : String) (svcid : String) :
    DeleteResult × DB × List String :=
  if !isValidObjectId svcid then (DeleteResult.invalidId, db, [])
  else
    match dbFindById db svcid with
    | none => (DeleteResult.notFound, db, [svcid])
    | some service =>
      let isOwner := service.vendorId == userId
      let isAdmin := userRole == ("admin")
      if !isOwner && !isAdmin then (DeleteResult.forbidden, db, [svcid])
      else (DeleteResult.ok, dbDelete db svcid, [svcid, svcid])

/-- `GET /:id` as wired in `service.routes.ts`:
`authorize('client', 'vendor', 'admin')` then the controller. -/
def getByIdRoute (db : DB) (user : Identity) (svcid : String) : GetResult × List String :=
  if !(authorize [("client"), ("vendor"), ("admin")] user.role) then (GetResult.forbidden, [])
  else getServiceById db svcid

/-- `PUT /:id` as wired in `service.routes.ts`:
`authorize('vendor')` then the controller. -/
def updateRoute (db : DB) (user : Identity) (svcid : String)
    (body : UpdatePatch) (file : Option String) :
    UpdateResult × DB × List String :=
  if !(authorize [("vendor")] user.role) then (UpdateResult.forbidden, db, [])
  else updateService db user.id svcid body file

/-- `DELETE /:id` as wired in `service.routes.ts`:
`authorize('vendor', 'admin')` then the controller. -/
def deleteRoute (db : DB) (user : Identity) (svcid : String) :
    DeleteResult × DB × List String :=
  if !(authorize [("vendor"), ("admin")] user.role) then (DeleteResult.forbidden, db, [])
  else deleteService db user.id user.role svcid

/-- A valid 24-character hexadecimal object id. -/
def oid1 : String := "507f1f77bcf86cd799439011"

/-- A second valid object id. -/
def oid2 : String := "507f1f77bcf86cd799439012"

/-- A concrete active service owned by vendor `v1`. -/
def svc1 : ServiceDoc :=
  { id := oid1, title := "Haircut", description := "Professional haircut with styling",
    price := 50, duration := 60, category := "Hair", status := "active",
    vendorId := "v1", imageUrl := none, createdAt := 1 }

/-- A concrete inactive service owned by vendor `v1`. -/
def svcInactive : ServiceDoc :=
  { svc1 with id := oid2, status := "inactive" }

/-- A one-document store. -/
def db1 : DB := [svc1]

/-- A store holding one inactive document. -/
def dbInactive : DB := [svcInactive]

/-- A concrete admin identity (not the owner of `svc1`). -/
def adminUser : Identity := { id := "a1", name := "Admin", role := "admin" }

/-- The identity owning `svc1`. -/
def vendorUser : Identity := { id := "v1", name := "Vendor One", role := "vendor" }

/-- A concrete client identity. -/
def clientUser : Identity := { id := "c1", name := "Client One", role := "client" }

/-- No query parameters supplied. -/
def noParams : RawParams :=
  { category := none, status := none, minPrice := none, maxPrice := none }

/-- Only `minPrice=abc` supplied (does not parse as a number). -/
def minAbcParams : RawParams := { noParams with minPrice := some ("abc") }

/-- Only `maxPrice=abc` supplied (does not parse as a number). -/
def maxAbcParams : RawParams := { noParams with maxPrice := some ("abc") }

/-- A concrete account and a variant differing only in the password. -/
def acct1 : Account := { id := "u1", name := "User One", role := "client", password := "pw1" }

/-- Same account with a different password. -/
def acct2 : Account := { acct1 with password := "pw2" }

/- ------------------------------------------------------------------ -/
/- Helper lemmas (shared). -/
/- ------------------------------------------------------------------ -/

/-- After `findByIdAndDelete id`, a `findById id` finds nothing. -/
theorem dbFindById_dbDelete (db : DB) (i : String) :
    dbFindById (dbDelete db i) i = none := by
  rw [dbFindById, List.find?_eq_none]
  intro x hx
  rw [dbDelete, List.mem_filter] at hx
  simpa using hx.2

/-- The predicate built for a client always carries `status = active`. -/
theorem buildQuery_v3_client_status (p : RawParams) :
    (buildQuery_v3 ("client") p).status = some ("active") := by
  rcases p with ⟨cat, st, minp, maxp⟩
  rcases minp with _ | m <;> rcases maxp with _ | mx <;> rcases cat with _ | c <;>
    simp [buildQuery_v3, truthy] <;> (repeat' split) <;> simp

/-- Every document selected by the client predicate has active status. -/
theorem mem_dbFind_client_active (db : DB) (p : RawParams) (s : ServiceDoc)
    (hs : s ∈ dbFind db (buildQuery_v3 ("client") p)) : s.status = "active" := by
  rw [dbFind, List.mem_filter] at hs
  have hm := hs.2
  rw [matchesQuery] at hm
  rw [buildQuery_v3_client_status p] at hm
  simp only [Bool.and_eq_true] at hm
  exact eq_of_beq hm.1.1

/-- Updating with a patch that does not carry `vendorId` preserves every
document's `vendorId`. -/
theorem map_vendorId_dbUpdate (db : DB) (i : String) (p : UpdatePatch)
    (hp : p.vendorId = none) :
    (dbUpdate db i p).map (fun s => s.vendorId) = db.map (fun s => s.vendorId) := by
  induction db with
  | nil => rfl
  | cons hd tl ih =>
    simp only [dbUpdate, List.map_cons, List.map_map] at ih ⊢
    rw [ih]
    by_cases h : (hd.id == i) = true
    · simp [h, applyPatch, hp]
    · simp [h]

/- ------------------------------------------------------------------ -/
/- Claim theorems. -/
/- ------------------------------------------------------------------ -/

/-- C8: the two parallel implementations of the general listing
operation's query construction (`part_002` lines 316-375 and `part_003`
lines 93-136) build the same selection predicate for every identity role
and every raw parameter set; in particular they apply the same
status-filtering policy for the vendor role. -/
theorem parallel_listing_builders_agree (role : String) (p : RawParams) :
    buildQuery_v2 role p = buildQuery_v3 role p := rfl

/-- C2: for a client identity and any value of the status parameter, the
predicate forces `status = active`, every listed document is active, and
the client-supplied status parameter has no effect on the predicate. -/
theorem client_listing_only_active (db : DB) (p : RawParams) (st1 st2 : Option String) :
    (buildQuery_v3 ("client") p).status = some ("active")
    ∧ (getAllServices db ("client") p).all (fun s => s.status == ("active")) = true
    ∧ buildQuery_v3 ("client") { p with status := st1 }
        = buildQuery_v3 ("client") { p with status := st2 } := by
  refine ⟨buildQuery_v3_client_status p, ?_, ?_⟩
  · rw [List.all_eq_true]
    intro s hs
    have := mem_dbFind_client_active db p s (by simpa [getAllServices] using hs)
    simpa using this
  · rcases p with ⟨cat, st, minp, maxp⟩
    simp [buildQuery_v3, truthy]

/-- C5: a syntactically invalid id makes each single-resource operation
(read, update, delete) return `InvalidIdentifier` (HTTP 400) with an
empty store-access log, i.e. before any store lookup; a well-formed id
with no matching record yields the distinct `NotFound` (HTTP 404). -/
theorem invalid_id_fails_before_store (db : DB) (bad good : String)
    (v uid urole : String) (body : UpdatePatch) (file : Option String)
    (hbad : isValidObjectId bad = false)
    (hgood : isValidObjectId good = true)
    (hmiss : dbFindById db good = none) :
    getServiceById db bad = (GetResult.invalidId, [])
    ∧ updateService db v bad body file = (UpdateResult.invalidId, db, [])
    ∧ deleteService db uid urole bad = (DeleteResult.invalidId, db, [])
    ∧ (getServiceById db good).1 = GetResult.notFound
    ∧ (updateService db v good body file).1 = UpdateResult.notFound
    ∧ (deleteService db uid urole good).1 = DeleteResult.notFound
    ∧ GetResult.invalidId ≠ GetResult.notFound := by
  refine ⟨?_, ?_, ?_, ?_, ?_, ?_, by decide⟩ <;>
    simp [getServiceById, updateService, deleteService, hbad, hgood, hmiss]

/-- C5 witness: concrete malformed id `xyz` and a well-formed id absent
from an empty store. -/
theorem invalid_id_fails_before_store_witness :
    isValidObjectId ("xyz") = false
    ∧ isValidObjectId oid1 = true
    ∧ dbFindById [] oid1 = none
    ∧ getServiceById [] ("xyz") = (GetResult.invalidId, [])
    ∧ (getServiceById [] oid1).1 = GetResult.notFound := by
  have h := invalid_id_fails_before_store [] ("xyz") oid1 ("v1") ("v1") ("vendor")
    emptyPatch none (by decide) (by decide) (by decide)
  exact ⟨by decide, by decide, by decide, h.1, h.2.2.2.1⟩

/-- C6: the caller-supplied `vendorId` is stripped from every update
patch before the store write, so an update (successful or not) leaves
every document's `vendorId` unchanged; a delete either leaves the store
untouched or only removes the addressed document, so no operation ever
reassigns `vendorId` after creation. -/
theorem ownerId_never_reassigned (db : DB) (v svcid : String) (body : UpdatePatch)
    (file : Option String) (uid urole : String) :
    ((updateService db v svcid body file).2.1).map (fun s => s.vendorId)
        = db.map (fun s => s.vendorId)
    ∧ ((deleteService db uid urole svcid).2.1 = db
        ∨ (deleteService db uid urole svcid).2.1 = dbDelete db svcid) := by
  constructor
  · rw [updateService]
    split
    · rfl
    · split
      · rfl
      · split
        · rfl
        · cases file <;>
            exact map_vendorId_dbUpdate db svcid _ rfl
  · rw [deleteService]
    split
    · exact Or.inl rfl
    · split
      · exact Or.inl rfl
      · dsimp only
        split
        · exact Or.inl rfl
        · exact Or.inr rfl

/-- C1: for a resource whose owner differs from an admin caller's id, the
delete route succeeds while the update route on the same resource returns
Forbidden; moreover an update is permitted only when the caller's id
equals the resource's `vendorId`, with no role-based override. -/
theorem admin_can_delete_but_not_update (db : DB) (user : Identity) (svcid : String)
    (body : UpdatePatch) (file : Option String) (s : ServiceDoc)
    (hrole : user.role = "admin")
    (hvalid : isValidObjectId svcid = true)
    (hfind : dbFindById db svcid = some s)
    (_hown : s.vendorId ≠ user.id) :
    (deleteRoute db user svcid).1 = DeleteResult.ok
    ∧ (updateRoute db user svcid body file).1 = UpdateResult.forbidden
    ∧ (∀ (db2 : DB) (u2 : Identity) (id2 : String) (b2 : UpdatePatch)
        (f2 : Option String) (r2 : Option ServiceDoc),
        (updateRoute db2 u2 id2 b2 f2).1 = UpdateResult.ok r2 →
        ∃ s2, dbFindById db2 id2 = some s2 ∧ s2.vendorId = u2.id) := by
  refine ⟨?_, ?_, ?_⟩
  · rw [deleteRoute]
    have hok : authorize [("vendor"), ("admin")] user.role = true := by
      rw [hrole]; decide
    rw [hok]
    simp only [Bool.not_true, Bool.false_eq_true, if_false]
    rw [deleteService, hvalid]
    simp only [Bool.not_true, Bool.false_eq_true, if_false, hfind]
    have hadmin : (user.role == ("admin")) = true := by rw [hrole]; decide
    simp [hadmin]
  · rw [updateRoute]
    have hno : authorize [("vendor")] user.role = false := by
      rw [hrole]; decide
    rw [hno]
    rfl
  · intro db2 u2 id2 b2 f2 r2 hok
    rw [updateRoute] at hok
    split at hok
    · exact absurd hok (by simp)
    · rw [updateService] at hok
      split at hok
      · exact absurd hok (by simp)
      · split at hok
        · exact absurd hok (by simp)
        · rename_i s2 heq
          split at hok
          · exact absurd hok (by simp)
          · rename_i hveq
            refine ⟨s2, heq, ?_⟩
            simpa using hveq

/-- C1 witness: the concrete admin `a1` deletes but cannot update the
service owned by `v1`. -/
theorem admin_can_delete_but_not_update_witness :
    adminUser.role = "admin"
    ∧ isValidObjectId oid1 = true
    ∧ dbFindById db1 oid1 = some svc1
    ∧ svc1.vendorId ≠ adminUser.id
    ∧ (deleteRoute db1 adminUser oid1).1 = DeleteResult.ok
    ∧ (updateRoute db1 adminUser oid1 emptyPatch none).1 = UpdateResult.forbidden := by
  have h := admin_can_delete_but_not_update db1 adminUser oid1 emptyPatch none svc1
    rfl (by decide) (by decide) (by decide)
  exact ⟨rfl, by decide, by decide, by decide, h.1, h.2.1⟩

/-- C7: an authorized delete succeeds, and repeating the identical delete
request against the resulting store returns `NotFound` — neither a crash
nor a silent success. -/
theorem delete_twice_second_notFound (db : DB) (user : Identity) (svcid : String)
    (s : ServiceDoc)
    (hrole : user.role = "vendor" ∨ user.role = "admin")
    (hvalid : isValidObjectId svcid = true)
    (hfind : dbFindById db svcid = some s)
    (hauth : s.vendorId = user.id ∨ user.role = "admin") :
    (deleteRoute db user svcid).1 = DeleteResult.ok
    ∧ (deleteRoute db user svcid).2.1 = dbDelete db svcid
    ∧ (deleteRoute (deleteRoute db user svcid).2.1 user svcid).1 = DeleteResult.notFound := by
  have hok : authorize [("vendor"), ("admin")] user.role = true := by
    rcases hrole with h | h <;> rw [h] <;> decide
  have hpass : (!(s.vendorId == user.id) && !(user.role == ("admin"))) = false := by
    rcases hauth with h | h <;> rw [h] <;> simp
  have hfirst : deleteRoute db user svcid = (DeleteResult.ok, dbDelete db svcid, [svcid, svcid]) := by
    rw [deleteRoute, hok]
    simp only [Bool.not_true, Bool.false_eq_true, if_false]
    rw [deleteService, hvalid]
    simp only [Bool.not_true, Bool.false_eq_true, if_false, hfind]
    simp [hpass]
  refine ⟨by rw [hfirst], by rw [hfirst], ?_⟩
  rw [hfirst]
  rw [deleteRoute, hok]
  simp only [Bool.not_true, Bool.false_eq_true, if_false]
  rw [deleteService, hvalid]
  simp only [Bool.not_true, Bool.false_eq_true, if_false]
  rw [dbFindById_dbDelete]

/-- C7 witness: the owner `v1` deletes `svc1`; the repeated delete
returns `NotFound`. -/
theorem delete_twice_second_notFound_witness :
    (vendorUser.role = "vendor" ∨ vendorUser.role = "admin")
    ∧ isValidObjectId oid1 = true
    ∧ dbFindById db1 oid1 = some svc1
    ∧ (svc1.vendorId = vendorUser.id ∨ vendorUser.role = "admin")
    ∧ (deleteRoute db1 vendorUser oid1).1 = DeleteResult.ok
    ∧ (deleteRoute (deleteRoute db1 vendorUser oid1).2.1 vendorUser oid1).1
        = DeleteResult.notFound := by
  have h := delete_twice_second_notFound db1 vendorUser oid1 svc1
    (Or.inl rfl) (by decide) (by decide) (Or.inl rfl)
  exact ⟨Or.inl rfl, by decide, by decide, Or.inl rfl, h.1, h.2.2⟩

/-- C9: for any authenticated role, the single-resource read returns an
existing resource with no ownership check and no status check — in
particular a client retrieves an inactive resource by id even though the
same resource is excluded from that client's listing. -/
theorem getById_no_status_or_ownership_check (db : DB) (user : Identity) (svcid : String)
    (s : ServiceDoc) (p : RawParams)
    (hrole : user.role = "client" ∨ user.role = "vendor" ∨ user.role = "admin")
    (hvalid : isValidObjectId svcid = true)
    (hfind : dbFindById db svcid = some s) :
    getByIdRoute db user svcid = (GetResult.ok s, [svcid])
    ∧ (s.status = "inactive" → s ∉ getAllServices db ("client") p) := by
  constructor
  · have hok : authorize [("client"), ("vendor"), ("admin")] user.role = true := by
      rcases hrole with h | h | h <;> rw [h] <;> decide
    rw [getByIdRoute, hok]
    simp only [Bool.not_true, Bool.false_eq_true, if_false]
    rw [getServiceById, hvalid]
    simp [hfind]
  · intro hst hmem
    have := mem_dbFind_client_active db p s (by simpa [getAllServices] using hmem)
    rw [hst] at this
    exact absurd this (by decide)

/-- C9 witness: the client `c1` reads the inactive `svcInactive` by id,
while the client listing over the same store is empty. -/
theorem getById_no_status_or_ownership_check_witness :
    (clientUser.role = "client" ∨ clientUser.role = "vendor" ∨ clientUser.role = "admin")
    ∧ isValidObjectId oid2 = true
    ∧ dbFindById dbInactive oid2 = some svcInactive
    ∧ getByIdRoute dbInactive clientUser oid2 = (GetResult.ok svcInactive, [oid2])
    ∧ (svcInactive.status = "inactive" → svcInactive ∉ getAllServices dbInactive ("client") noParams) := by
  have h := getById_no_status_or_ownership_check dbInactive clientUser oid2 svcInactive noParams
    (Or.inl rfl) (by decide) (by decide)
  exact ⟨Or.inl rfl, by decide, by decide, h.1, h.2⟩

/-- C3 counterexample: the three authentication-failure causes do not
produce one identical response — the absent-credential response, the
failed-verification response and the resolved-to-no-account response are
pairwise distinct (their messages differ), at concrete inputs. -/
theorem auth_failure_responses_differ :
    (protect (fun _ => some ("u1")) (fun _ => none) none
      ≠ protect (fun _ => some ("u1")) (fun _ => none) (some ("Bearer tok")))
    ∧ (protect (fun _ => none) (fun _ => none) (some ("Bearer tok"))
      ≠ protect (fun _ => some ("u1")) (fun _ => none) (some ("Bearer tok")))
    ∧ (protect (fun _ => some ("u1")) (fun _ => none) none
      ≠ protect (fun _ => none) (fun _ => none) (some ("Bearer tok"))) := by
  refine ⟨?_, ?_, ?_⟩ <;> decide

/-- C3 (amended): every authentication failure is collapsed to the single
HTTP status 401 (one `Unauthenticated` kind), but the response bodies are
not identical: the message still reveals whether the credential was
absent, failed verification, or resolved to no account. -/
theorem unauthenticated_single_status_distinct_messages
    (verify : String → Option String) (findUser : String → Option Account)
    (h : Option String) :
    ((∃ u, protect verify findUser h = AuthResult.ok u)
      ∨ (∃ m, protect verify findUser h = AuthResult.unauth 401 m))
    ∧ protect verify findUser none = AuthResult.unauth 401 ("Not authorized, no token")
    ∧ protect (fun _ => none) findUser (some ("Bearer tok"))
        = AuthResult.unauth 401 ("Not authorized, token failed")
    ∧ protect (fun _ => some ("u1")) (fun _ => none) (some ("Bearer tok"))
        = AuthResult.unauth 401 ("User not found") := by
  refine ⟨?_, rfl, rfl, by decide⟩
  simp only [protect.eq_def]
  split
  · exact Or.inr ⟨_, rfl⟩
  · split
    · exact Or.inr ⟨_, rfl⟩
    · split
      · exact Or.inr ⟨_, rfl⟩
      · split
        · exact Or.inr ⟨_, rfl⟩
        · exact Or.inl ⟨_, rfl⟩

/-- C4 counterexample: an unparsable `minPrice` is not left out of the
predicate — the bound is included (as NaN), and the built predicate
differs from the bound-omitted predicate; an unparsable `maxPrice` does
constrain the result set: it empties a listing that matches without it. -/
theorem unparsable_price_bound_included :
    (buildQuery_v3 ("vendor") minAbcParams).price = some ({ gte := some JSNum.nan, lte := none })
    ∧ buildQuery_v3 ("vendor") minAbcParams ≠ buildQuery_v3 ("vendor") noParams
    ∧ dbFind db1 (buildQuery_v3 ("vendor") maxAbcParams) = []
    ∧ dbFind db1 (buildQuery_v3 ("vendor") noParams) = [svc1] := by
  refine ⟨by decide, by decide, by decide, by decide⟩

/-- C4 (amended): an unparsable price bound is not omitted from the
predicate and does not fail the request: it is included as NaN.  Under
the store's numeric comparison (NaN below every number) an unparsable
`minPrice` does not change which documents match, but an unparsable
`maxPrice` excludes every document. -/
theorem unparsable_price_bound_nan_semantics (role : String) (p q : RawParams)
    (db db2 : DB)
    (h1 : truthy p.minPrice = true)
    (h2 : jsNumber ((p.minPrice).getD ("")) = JSNum.nan)
    (h3 : truthy p.maxPrice = false)
    (h4 : truthy q.maxPrice = true)
    (h5 : jsNumber ((q.maxPrice).getD ("")) = JSNum.nan) :
    (buildQuery_v3 role p).price = some ({ gte := some JSNum.nan, lte := none })
    ∧ dbFind db (buildQuery_v3 role p) = dbFind db ({ buildQuery_v3 role p with price := none })
    ∧ dbFind db2 (buildQuery_v3 role q) = [] := by
  have hp : (buildQuery_v3 role p).price = some ({ gte := some JSNum.nan, lte := none }) := by
    rw [buildQuery_v3]
    simp only [h1, h2, h3, Bool.true_or, if_true, Bool.false_eq_true, if_false]
  have hq : (buildQuery_v3 role q).price
      = some ({ gte := if truthy q.minPrice then some (jsNumber ((q.minPrice).getD (""))) else none,
                lte := some JSNum.nan }) := by
    rw [buildQuery_v3]
    simp only [h4, h5, Bool.or_true, if_true]
  refine ⟨hp, ?_, ?_⟩
  · apply List.filter_congr
    intro s _
    rw [matchesQuery, matchesQuery, hp]
    rfl
  · rw [dbFind, List.filter_eq_nil_iff]
    intro s _
    rw [matchesQuery, hq]
    simp [leBound]

/-- C4 (amended) witness: `minPrice=abc` leaves the concrete listing
unchanged while `maxPrice=abc` empties it. -/
theorem unparsable_price_bound_nan_semantics_witness :
    truthy minAbcParams.minPrice = true
    ∧ jsNumber ((minAbcParams.minPrice).getD ("")) = JSNum.nan
    ∧ truthy minAbcParams.maxPrice = false
    ∧ truthy maxAbcParams.maxPrice = true
    ∧ jsNumber ((maxAbcParams.maxPrice).getD ("")) = JSNum.nan
    ∧ dbFind db1 (buildQuery_v3 ("vendor") minAbcParams)
        = dbFind db1 ({ buildQuery_v3 ("vendor") minAbcParams with price := none })
    ∧ dbFind db1 (buildQuery_v3 ("vendor") maxAbcParams) = [] := by
  have h := unparsable_price_bound_nan_semantics ("vendor") minAbcParams maxAbcParams db1 db1
    (by decide) (by decide) (by decide) (by decide) (by decide)
  exact ⟨by decide, by decide, by decide, by decide, by decide, h.2.1, h.2.2⟩

/-- C10: the identity attached by `protect` is the account projected
without its password: the middleware's outcome is unchanged when every
stored password changes, and a successful `protect` always returns the
password-free projection of a stored account. -/
theorem protect_identity_excludes_password (verify : String → Option String)
    (f1 f2 : String → Option Account) (h : Option String)
    (hsame : ∀ uid, (f1 uid).map selectNoPassword = (f2 uid).map selectNoPassword) :
    protect verify f1 h = protect verify f2 h
    ∧ (∀ u, protect verify f1 h = AuthResult.ok u
        → ∃ uid a, f1 uid = some a ∧ u = selectNoPassword a) := by
  constructor
  · simp only [protect.eq_def]
    split
    · rfl
    · split
      · rfl
      · split
        · rfl
        · rename_i uid hequid
          have hs := hsame uid
          cases hf1 : f1 uid with
          | none =>
            cases hf2 : f2 uid with
            | none => rfl
            | some a2 => rw [hf1, hf2] at hs; exact absurd hs (by simp)
          | some a1 =>
            cases hf2 : f2 uid with
            | none => rw [hf1, hf2] at hs; exact absurd hs (by simp)
            | some a2 =>
              rw [hf1, hf2] at hs
              simp only [Option.map_some', Option.some.injEq] at hs
              simp [hs]
  · intro u hu
    simp only [protect.eq_def] at hu
    split at hu
    · exact absurd hu (by simp)
    · split at hu
      · exact absurd hu (by simp)
      · split at hu
        · exact absurd hu (by simp)
        · rename_i uid hequid
          cases hf1 : f1 uid with
          | none => rw [hf1] at hu; exact absurd hu (by simp)
          | some a1 =>
            rw [hf1] at hu
            simp only [AuthResult.ok.injEq] at hu
            exact ⟨uid, a1, hf1, hu.symm⟩

/-- C10 witness: two identity stores that differ only in the stored
password produce the same `protect` outcome. -/
theorem protect_identity_excludes_password_witness :
    protect (fun _ => some ("u1")) (fun _ => some acct1) (some ("Bearer tok"))
      = protect (fun _ => some ("u1")) (fun _ => some acct2) (some ("Bearer tok")) := by
  exact (protect_identity_excludes_password (fun _ => some ("u1"))
    (fun _ => some acct1) (fun _ => some acct2) (some ("Bearer tok"))
    (fun _ => rfl)).1

end Glambook
